import Mathlib

/-
  Shallow embedding of src/api/index.js, an Express storefront API backed by
  two JSON files (data/products.json and data/cart.json).

  Modelling conventions:
  - JS numbers appearing as identifiers, prices and lengths are modelled as
    integers (the code only ever produces and compares integral values here).
  - `parseInt` on a route parameter is modelled as `Option Int`; `none`
    stands for NaN, which in JS compares unequal (with `===`) to every
    number — captured by `paramMatches`.
  - A request-body field that may be absent is an `Option`; JS truthiness of
    a string is "present and nonempty", of a number "present and nonzero".
    A JS array is always truthy, so the separate `Array.isArray` /
    `length === 0` checks of the code are modelled on the `Option (List _)`
    value itself.
  - File I/O: `FileRead` is the outcome of `fs.readFileSync` + `JSON.parse`
    (`fail` = the read or the parse threw).  `readJsonFile` catches that
    failure and returns `[]` for both `products.json` and `cart.json`
    (see its two basename branches); only other paths rethrow, and no route
    reads any other path, so the 500 catch branches of the read-only routes
    are unreachable.  `writeJsonFile` swallows write errors, so a mutation
    is modelled by the content the handler hands to it: `written = some l`
    means the handler called `writeJsonFile` with `l`, `written = none`
    means no write was attempted.
-/

namespace WebsiteApi

/-- JS numbers of this API, modelled as integers. -/
abbrev JNum := Int

/-- A stored product record.  `extra` holds the free-form fields of the
admin payload that are persisted as-is alongside the required ones. -/
structure Product where
  id : JNum
  name : String
  price : JNum
  description : String
  images : List String
  extra : List (String × String)
deriving DecidableEq

/-- The admin create payload (`req.body` of POST /api/admin/products):
each required field may be absent, and extra fields ride along. -/
structure ProductPayload where
  name : Option String
  price : Option JNum
  description : Option String
  images : Option (List String)
  extra : List (String × String)
deriving DecidableEq

/-- A cart line item: exactly the four fields the cart handler extracts. -/
structure CartItem where
  id : JNum
  name : String
  price : JNum
  images : List String
deriving DecidableEq

/-- The cart add payload (`req.body` of POST /api/cart). -/
structure CartPayload where
  id : Option JNum
  name : Option String
  price : Option JNum
  images : Option (List String)
  extra : List (String × String)
deriving DecidableEq

/-- Response body of a handler: a JSON payload, a JSON error object
(the argument is the `error` message string), or an empty body (204). -/
inductive RespBody (β : Type) where
  | payload (b : β)
  | error (msg : String)
  | empty
deriving DecidableEq

/-- Observable outcome of one request: HTTP status, response body, the
content handed to `writeJsonFile` (`none` when no write was attempted),
and whether the backing file was read at all. -/
structure Outcome (σ β : Type) where
  status : Nat
  body : RespBody β
  written : Option σ
  didRead : Bool
deriving DecidableEq

/-- Result of the raw file read + JSON parse underlying `readJsonFile`:
`ok d` when the file parsed to the collection `d`, `fail` when the read or
the parse threw (file absent, unreadable, or malformed). -/
inductive FileRead (α : Type) where
  | ok (data : α)
  | fail
deriving DecidableEq

/-- `readJsonFile(productsPath)`: the catch branch for basename
`products.json` logs and returns `[]`, so a failing read is downgraded to
an empty collection and the function never throws for this path. -/
def readProductsFile : FileRead (List Product) → List Product
  | FileRead.ok d => d
  | FileRead.fail => []

/-- `readJsonFile(cartPath)`: the catch branch for basename `cart.json`
returns `[]`, so a failing read is downgraded to an empty cart. -/
def readCartFile : FileRead (List CartItem) → List CartItem
  | FileRead.ok d => d
  | FileRead.fail => []

/-- JS truthiness of an optional string: present and nonempty. -/
def truthyStr : Option String → Bool
  | some s => !(s == "")
  | none => false

/-- JS truthiness of an optional number: present and nonzero. -/
def truthyNum : Option JNum → Bool
  | some n => !(n == 0)
  | none => false

/-- `p.id === parseInt(param)`: a NaN parameter (`none`) compares unequal
to every stored identifier. -/
def paramMatches (parsed : Option Int) (pid : JNum) : Bool :=
  match parsed with
  | some n => pid == n
  | none => false

/-- The hardcoded fallback admin secret of the source. -/
def fallbackSecret : String := "your-very-secret-key-123"

/-- `ADMIN_API_KEY = process.env.ADMIN_API_KEY || fallback`: an unset or
empty (falsy) environment value falls back to the hardcoded secret. -/
def configuredSecret (env : Option String) : String :=
  match env with
  | some s => if s == "" then fallbackSecret else s
  | none => fallbackSecret

/-- `checkAdmin` middleware condition: `apiKey && apiKey === ADMIN_API_KEY`
(a missing or empty header is falsy and fails outright). -/
def checkAdmin (secret : String) (header : Option String) : Bool :=
  match header with
  | some k => !(k == "") && k == secret
  | none => false

/-- The 403 outcome produced by the `checkAdmin` middleware; the guarded
handler never runs, so the backing file is neither read nor written. -/
def forbiddenOutcome (β : Type) : Outcome (List Product) β :=
  { status := 403, body := RespBody.error "Forbidden: Admin access required",
    written := none, didRead := false }

-- --- CUSTOMER APIs ---

/-- GET /api/products.  `readJsonFile` cannot throw for `products.json`,
so the 500 catch branch of the handler is unreachable. -/
def getProducts (r : FileRead (List Product)) : Outcome (List Product) (List Product) :=
  let products := readProductsFile r
  { status := 200, body := RespBody.payload products, written := none, didRead := true }

/-- GET /api/products/:id — `products.find(p => p.id === parseInt(id))`. -/
def getProductById (r : FileRead (List Product)) (parsed : Option Int) :
    Outcome (List Product) Product :=
  let products := readProductsFile r
  match products.find? (fun p => paramMatches parsed p.id) with
  | some p => { status := 200, body := RespBody.payload p, written := none, didRead := true }
  | none => { status := 404, body := RespBody.error "Product not found",
              written := none, didRead := true }

/-- GET /api/cart. -/
def getCart (r : FileRead (List CartItem)) : Outcome (List CartItem) (List CartItem) :=
  let cart := readCartFile r
  { status := 200, body := RespBody.payload cart, written := none, didRead := true }

/-- Validation of POST /api/cart:
`!id || !name || typeof price !== 'number' || !images || !Array.isArray(images)`
negated: `id` truthy, `name` truthy, `price` present as a number, `images`
present (an array value is always truthy and passes `Array.isArray`). -/
def cartItemValid (payload : CartPayload) : Bool :=
  truthyNum payload.id && truthyStr payload.name &&
    payload.price.isSome && payload.images.isSome

/-- POST /api/cart: validate, then push `{ id, name, price, images }`
(destructured from the body, all other fields discarded) and persist. -/
def postCart (r : FileRead (List CartItem)) (payload : CartPayload) :
    Outcome (List CartItem) (List CartItem) :=
  let cart := readCartFile r
  if cartItemValid payload then
    let item : CartItem :=
      { id := payload.id.getD 0, name := payload.name.getD "",
        price := payload.price.getD 0, images := payload.images.getD [] }
    let newCart := cart ++ [item]
    { status := 201, body := RespBody.payload newCart, written := some newCart, didRead := true }
  else
    { status := 400, body := RespBody.error "Invalid cart item structure.",
      written := none, didRead := true }

/-- DELETE /api/cart/:index: `parseInt` the parameter; when
`index >= 0 && index < cart.length`, `cart.splice(index, 1)` removes that
position and the cart is persisted; otherwise 404 and no write. -/
def deleteCartIndex (r : FileRead (List CartItem)) (parsed : Option Int) :
    Outcome (List CartItem) (List CartItem) :=
  let cart := readCartFile r
  match parsed with
  | some index =>
    if 0 ≤ index ∧ index < (cart.length : Int) then
      let newCart := cart.take index.toNat ++ cart.drop (index.toNat + 1)
      { status := 200, body := RespBody.payload newCart,
        written := some newCart, didRead := true }
    else
      { status := 404, body := RespBody.error "Item index not found in cart",
        written := none, didRead := true }
  | none =>
      { status := 404, body := RespBody.error "Item index not found in cart",
        written := none, didRead := true }

-- --- ADMIN ONLY APIs ---

/-- `products.length > 0 ? Math.max(...products.map(p => p.id)) : 0`. -/
def maxId (products : List Product) : JNum :=
  match products.map (fun p => p.id) with
  | [] => 0
  | x :: xs => xs.foldl max x

/-- Validation of POST /api/admin/products:
`!name || !price || !description || !images || images.length === 0`
negated: the three scalars truthy, `images` present and nonempty. -/
def productValid (payload : ProductPayload) : Bool :=
  truthyStr payload.name && truthyNum payload.price &&
    truthyStr payload.description &&
    payload.images.isSome && !(payload.images.getD [] == [])

/-- The record the create handler builds: `newProduct = req.body` with
`newProduct.id = maxId + 1` assigned over any caller-supplied id. -/
def createProductRecord (products : List Product) (payload : ProductPayload) : Product :=
  { id := maxId products + 1,
    name := payload.name.getD "",
    price := payload.price.getD 0,
    description := payload.description.getD "",
    images := payload.images.getD [],
    extra := payload.extra }

/-- POST /api/admin/products handler body (after the middleware):
assign the id, validate, then push and persist. -/
def postAdminProductHandler (r : FileRead (List Product)) (payload : ProductPayload) :
    Outcome (List Product) Product :=
  let products := readProductsFile r
  let newProduct := createProductRecord products payload
  if productValid payload then
    let newProducts := products ++ [newProduct]
    { status := 201, body := RespBody.payload newProduct,
      written := some newProducts, didRead := true }
  else
    { status := 400,
      body := RespBody.error
        "Missing required product fields (name, price, description, images).",
      written := none, didRead := true }

/-- POST /api/admin/products route: `checkAdmin` middleware, then handler. -/
def postAdminProduct (secret : String) (header : Option String)
    (r : FileRead (List Product)) (payload : ProductPayload) :
    Outcome (List Product) Product :=
  if checkAdmin secret header then postAdminProductHandler r payload
  else forbiddenOutcome Product

/-- DELETE /api/admin/products/:id handler body:
`products.filter(p => p.id !== id)`; if the length shrank, persist and 204,
else 404 and no write. -/
def deleteAdminProductHandler (r : FileRead (List Product)) (parsed : Option Int) :
    Outcome (List Product) (List Product) :=
  let products := readProductsFile r
  let remaining := products.filter (fun p => !(paramMatches parsed p.id))
  if remaining.length < products.length then
    { status := 204, body := RespBody.empty, written := some remaining, didRead := true }
  else
    { status := 404, body := RespBody.error "Product not found",
      written := none, didRead := true }

/-- DELETE /api/admin/products/:id route: `checkAdmin` middleware, then handler. -/
def deleteAdminProduct (secret : String) (header : Option String)
    (r : FileRead (List Product)) (parsed : Option Int) :
    Outcome (List Product) (List Product) :=
  if checkAdmin secret header then deleteAdminProductHandler r parsed
  else forbiddenOutcome (List Product)

-- --- Helper lemmas ---

lemma foldl_max_init_le (l : List Int) (x : Int) : x ≤ l.foldl max x := by
  induction l generalizing x with
  | nil => exact le_refl x
  | cons a t ih => exact le_trans (le_max_left x a) (ih (max x a))

lemma le_foldl_max_of_mem : ∀ (l : List Int) (x a : Int), a ∈ l → a ≤ l.foldl max x := by
  intro l
  induction l with
  | nil => intro x a h; cases h
  | cons b t ih =>
    intro x a h
    rcases List.mem_cons.mp h with hb | ht
    · subst hb
      exact le_trans (le_max_right x a) (foldl_max_init_le t (max x a))
    · exact ih (max x b) a ht

lemma foldl_max_mem (l : List Int) (x : Int) : l.foldl max x ∈ x :: l := by
  induction l generalizing x with
  | nil => simp
  | cons a t ih =>
    have h := ih (max x a)
    simp only [List.foldl_cons]
    rcases List.mem_cons.mp h with h1 | h2
    · rcases max_choice x a with hx | ha
      · rw [h1, hx]; exact List.mem_cons_self _ _
      · rw [h1, ha]; exact List.mem_cons.mpr (Or.inr (List.mem_cons_self _ _))
    · exact List.mem_cons.mpr (Or.inr (List.mem_cons.mpr (Or.inr h2)))

lemma id_le_maxId {p : Product} {ps : List Product} (h : p ∈ ps) : p.id ≤ maxId ps := by
  unfold maxId
  cases hm : ps.map (fun q => q.id) with
  | nil =>
    cases ps with
    | nil => cases h
    | cons q t => simp at hm
  | cons x xs =>
    have hmem : p.id ∈ ps.map (fun q => q.id) := List.mem_map_of_mem _ h
    rw [hm] at hmem
    rcases List.mem_cons.mp hmem with h1 | h2
    · rw [h1]; exact foldl_max_init_le xs x
    · exact le_foldl_max_of_mem xs x p.id h2

lemma maxId_mem {ps : List Product} (h : ps ≠ []) :
    maxId ps ∈ ps.map (fun p => p.id) := by
  unfold maxId
  cases hm : ps.map (fun q => q.id) with
  | nil =>
    cases ps with
    | nil => exact absurd rfl h
    | cons q t => simp at hm
  | cons x xs =>
    exact foldl_max_mem xs x

lemma maxId_nil : maxId [] = 0 := rfl

/-- C1: for an admin product creation that passes authorization and
validation, the response body is the created record, whose identifier is 1
when the loaded collection is empty, equals m + 1 for m the maximum
identifier present (attained and an upper bound) when it is nonempty, and
is strictly greater than every pre-existing identifier. -/
theorem c1_create_assigned_id (secret : String) (header : Option String)
    (r : FileRead (List Product)) (payload : ProductPayload)
    (hauth : checkAdmin secret header = true)
    (hvalid : productValid payload = true) :
    (postAdminProduct secret header r payload).body =
      RespBody.payload (createProductRecord (readProductsFile r) payload) ∧
    (readProductsFile r = [] →
      (createProductRecord (readProductsFile r) payload).id = 1) ∧
    (readProductsFile r ≠ [] →
      ∃ m, m ∈ (readProductsFile r).map (fun p => p.id) ∧
        (∀ q ∈ readProductsFile r, q.id ≤ m) ∧
        (createProductRecord (readProductsFile r) payload).id = m + 1) ∧
    (∀ p ∈ readProductsFile r,
      p.id < (createProductRecord (readProductsFile r) payload).id) := by
  refine ⟨?_, ?_, ?_, ?_⟩
  · simp [postAdminProduct, hauth, postAdminProductHandler, hvalid]
  · intro he
    simp [createProductRecord, he, maxId_nil]
  · intro hne
    refine ⟨maxId (readProductsFile r), maxId_mem hne, ?_, rfl⟩
    intro q hq
    exact id_le_maxId hq
  · intro p hp
    have h1 := id_le_maxId hp
    have h2 : (createProductRecord (readProductsFile r) payload).id =
        maxId (readProductsFile r) + 1 := rfl
    exact lt_of_le_of_lt h1 (by rw [h2]; exact lt_add_one _)

/-- Witness for C1 at a concrete catalog and payload. -/
theorem c1_create_assigned_id_witness :
    checkAdmin "k" (some "k") = true ∧
    productValid { name := some "X", price := some 5, description := some "d",
                   images := some ["a"], extra := [] } = true ∧
    (∀ p ∈ readProductsFile (FileRead.ok
        [{ id := 3, name := "A", price := 2, description := "da",
           images := ["ia"], extra := [] }]),
      p.id < (createProductRecord
        (readProductsFile (FileRead.ok
          [{ id := 3, name := "A", price := 2, description := "da",
             images := ["ia"], extra := [] }]))
        { name := some "X", price := some 5, description := some "d",
          images := some ["a"], extra := [] }).id) := by
  refine ⟨by decide, by decide, ?_⟩
  exact (c1_create_assigned_id "k" (some "k")
    (FileRead.ok [{ id := 3, name := "A", price := 2, description := "da",
                    images := ["ia"], extra := [] }])
    { name := some "X", price := some 5, description := some "d",
      images := some ["a"], extra := [] }
    (by decide) (by decide)).2.2.2

/-- C2 (amended): on a catalog with unique identifiers, create (which
assigns max + 1) and delete both preserve uniqueness, delete keeps every
surviving record unchanged (a sublist of the original), and a create never
decreases the maximum identifier; however a delete can decrease it (see
the counterexample), so monotonicity across arbitrary sequences fails. -/
theorem c2_id_invariants (ps : List Product) (payload : ProductPayload) (i : Int)
    (hnodup : (ps.map (fun p => p.id)).Nodup) :
    ((ps ++ [createProductRecord ps payload]).map (fun p => p.id)).Nodup ∧
    (∀ l, (deleteAdminProductHandler (FileRead.ok ps) (some i)).written = some l →
      l.Sublist ps ∧ (l.map (fun p => p.id)).Nodup) ∧
    maxId ps ≤ maxId (ps ++ [createProductRecord ps payload]) := by
  refine ⟨?_, ?_, ?_⟩
  · rw [List.map_append]
    refine List.Nodup.append hnodup (List.nodup_singleton _) ?_
    intro a ha hb
    simp only [List.map_cons, List.map_nil, List.mem_singleton] at hb
    rcases List.mem_map.mp ha with ⟨p, hp, hpa⟩
    have h1 : p.id ≤ maxId ps := id_le_maxId hp
    have h2 : (createProductRecord ps payload).id = maxId ps + 1 := rfl
    rw [hb, h2] at hpa
    rw [hpa] at h1
    exact absurd h1 (not_le.mpr (lt_add_one _))
  · intro l hl
    simp only [deleteAdminProductHandler, readProductsFile] at hl
    split at hl
    · simp only [Option.some.injEq] at hl
      subst hl
      refine ⟨List.filter_sublist _, ?_⟩
      exact List.Nodup.sublist (List.Sublist.map _ (List.filter_sublist _)) hnodup
    · simp at hl
  · by_cases hps : ps = []
    · subst hps
      have h1 : (createProductRecord ([] : List Product) payload).id ≤
          maxId ([] ++ [createProductRecord [] payload]) :=
        id_le_maxId (by simp)
      have h2 : (createProductRecord ([] : List Product) payload).id = 1 := rfl
      rw [maxId_nil]
      have h3 : (1 : Int) ≤ maxId ([] ++ [createProductRecord [] payload]) := h2 ▸ h1
      linarith
    · rcases List.mem_map.mp (maxId_mem hps) with ⟨p, hp, hpid⟩
      have h1 := id_le_maxId
        (show p ∈ ps ++ [createProductRecord ps payload] from List.mem_append_left _ hp)
      rw [hpid] at h1
      exact h1

/-- Witness for C2 at a concrete one-element catalog. -/
theorem c2_id_invariants_witness :
    (([⟨1, "A", 5, "d", ["a"], []⟩] : List Product).map (fun p => p.id)).Nodup ∧
    maxId [⟨1, "A", 5, "d", ["a"], []⟩] ≤
      maxId ([⟨1, "A", 5, "d", ["a"], []⟩] ++
        [createProductRecord [⟨1, "A", 5, "d", ["a"], []⟩]
          ⟨some "X", some 5, some "dx", some ["x"], []⟩]) :=
  ⟨by decide,
   (c2_id_invariants [⟨1, "A", 5, "d", ["a"], []⟩]
     ⟨some "X", some 5, some "dx", some ["x"], []⟩ 1 (by decide)).2.2⟩

/-- C2 counterexample: on the unique-id catalog with identifiers 1 and 5,
an authorized delete of id 5 succeeds and the persisted collection has
maximum identifier 1 < 5 — the maximum identifier present decreases, so a
later create reassigns id 2 even though higher ids existed before. -/
theorem c2_counterexample :
    (([⟨1, "A", 5, "d", ["a"], []⟩, ⟨5, "B", 7, "e", ["b"], []⟩] :
        List Product).map (fun p => p.id)).Nodup ∧
    (deleteAdminProductHandler
        (FileRead.ok [⟨1, "A", 5, "d", ["a"], []⟩, ⟨5, "B", 7, "e", ["b"], []⟩])
        (some 5)).written = some [⟨1, "A", 5, "d", ["a"], []⟩] ∧
    maxId [⟨1, "A", 5, "d", ["a"], []⟩] <
      maxId [⟨1, "A", 5, "d", ["a"], []⟩, ⟨5, "B", 7, "e", ["b"], []⟩] := by
  decide

/-- C3 counterexample: when the backing read of the product catalog fails,
GET /api/products responds 200 with an empty array — the claimed fatal 500
read-fault response does not occur, because `readJsonFile` catches the
failure for `products.json` and returns `[]`. -/
theorem c3_counterexample :
    (getProducts FileRead.fail).status = 200 ∧
    (getProducts FileRead.fail).body = RespBody.payload ([] : List Product) := by
  decide

/-- C3 (amended): a failing backing read of the product catalog is silently
downgraded to an empty collection: GET /api/products always responds 200
(with the parsed array on a successful read and with `[]` on a read fault)
and never reaches its 500 branch. -/
theorem c3_read_fault_downgraded (r : FileRead (List Product)) :
    (getProducts r).status = 200 ∧
    (getProducts r).written = none ∧
    (getProducts FileRead.fail).body = RespBody.payload ([] : List Product) ∧
    (∀ ps, (getProducts (FileRead.ok ps)).body = RespBody.payload ps) := by
  refine ⟨rfl, rfl, rfl, fun ps => rfl⟩

/-- C4: an authorized admin product creation whose payload has a falsy
name, price (in particular price 0), or description, or an absent or empty
images field, fails with 400 and performs no write of the product file. -/
theorem c4_create_validation_no_mutation (secret : String) (header : Option String)
    (r : FileRead (List Product)) (payload : ProductPayload)
    (hauth : checkAdmin secret header = true)
    (hbad : truthyStr payload.name = false ∨ truthyNum payload.price = false ∨
      truthyStr payload.description = false ∨ payload.images = none ∨
      payload.images = some []) :
    (postAdminProduct secret header r payload).status = 400 ∧
    (postAdminProduct secret header r payload).written = none := by
  have hv : productValid payload = false := by
    unfold productValid
    rcases hbad with h | h | h | h | h <;> simp [h]
  constructor <;>
    simp [postAdminProduct, hauth, postAdminProductHandler, hv]

/-- Witness for C4: authorized creation with price 0 is rejected. -/
theorem c4_create_validation_no_mutation_witness :
    checkAdmin "k" (some "k") = true ∧
    truthyNum (some (0 : JNum)) = false ∧
    ((postAdminProduct "k" (some "k") (FileRead.ok [])
        ⟨some "X", some 0, some "d", some ["a"], []⟩).status = 400 ∧
      (postAdminProduct "k" (some "k") (FileRead.ok [])
        ⟨some "X", some 0, some "d", some ["a"], []⟩).written = none) :=
  ⟨by decide, by decide,
   c4_create_validation_no_mutation "k" (some "k") (FileRead.ok [])
     ⟨some "X", some 0, some "d", some ["a"], []⟩ (by decide)
     (Or.inr (Or.inl (by decide)))⟩

/-- C5: for an authorized delete of identifier i, if some stored product
has that identifier then exactly the records with identifier i are removed,
the reduced collection is persisted, and the response is 204 with an empty
body; if none has it, the response is 404 and no write is performed. -/
theorem c5_admin_delete_exact (secret : String) (header : Option String)
    (r : FileRead (List Product)) (i : Int)
    (hauth : checkAdmin secret header = true) :
    ((∃ p ∈ readProductsFile r, p.id = i) →
      (deleteAdminProduct secret header r (some i)).status = 204 ∧
      (deleteAdminProduct secret header r (some i)).body = RespBody.empty ∧
      (deleteAdminProduct secret header r (some i)).written =
        some ((readProductsFile r).filter (fun p => !(p.id == i)))) ∧
    ((∀ p ∈ readProductsFile r, p.id ≠ i) →
      (deleteAdminProduct secret header r (some i)).status = 404 ∧
      (deleteAdminProduct secret header r (some i)).written = none) := by
  have hroute : deleteAdminProduct secret header r (some i) =
      deleteAdminProductHandler r (some i) := by
    simp [deleteAdminProduct, hauth]
  constructor
  · rintro ⟨p, hp, hpi⟩
    have hcond : ((readProductsFile r).filter
        (fun q => !(q.id == i))).length < (readProductsFile r).length := by
      refine List.length_filter_lt_length_iff_exists.mpr ⟨p, hp, ?_⟩
      simp [hpi]
    rw [hroute]
    simp [deleteAdminProductHandler, paramMatches, hcond]
  · intro hnone
    have heq : (readProductsFile r).filter
        (fun q => !(q.id == i)) = readProductsFile r := by
      refine List.filter_eq_self.mpr ?_
      intro p hp
      simpa using hnone p hp
    rw [hroute]
    simp [deleteAdminProductHandler, paramMatches, heq]

/-- Witness for C5 at a concrete two-product catalog with id 2 present. -/
theorem c5_admin_delete_exact_witness :
    checkAdmin "k" (some "k") = true ∧
    (∃ p ∈ readProductsFile (FileRead.ok
        ([⟨1, "A", 5, "d", ["a"], []⟩, ⟨2, "B", 6, "e", ["b"], []⟩] : List Product)),
      p.id = 2) ∧
    ((deleteAdminProduct "k" (some "k")
        (FileRead.ok [⟨1, "A", 5, "d", ["a"], []⟩, ⟨2, "B", 6, "e", ["b"], []⟩])
        (some 2)).status = 204 ∧
      (deleteAdminProduct "k" (some "k")
        (FileRead.ok [⟨1, "A", 5, "d", ["a"], []⟩, ⟨2, "B", 6, "e", ["b"], []⟩])
        (some 2)).body = RespBody.empty ∧
      (deleteAdminProduct "k" (some "k")
        (FileRead.ok [⟨1, "A", 5, "d", ["a"], []⟩, ⟨2, "B", 6, "e", ["b"], []⟩])
        (some 2)).written =
        some ((readProductsFile (FileRead.ok
          ([⟨1, "A", 5, "d", ["a"], []⟩, ⟨2, "B", 6, "e", ["b"], []⟩] : List Product))).filter
            (fun p => !(p.id == 2)))) :=
  ⟨by decide, by decide,
   (c5_admin_delete_exact "k" (some "k")
     (FileRead.ok [⟨1, "A", 5, "d", ["a"], []⟩, ⟨2, "B", 6, "e", ["b"], []⟩]) 2
     (by decide)).1 (by decide)⟩

/-- C6: a cart add that passes validation appends exactly one line item as
the last element, consisting of exactly the four destructured fields of the
payload; any extra payload fields leave the outcome unchanged. -/
theorem c6_cart_add_snapshot (r : FileRead (List CartItem)) (i : JNum) (n : String)
    (pr : JNum) (imgs : List String) (e1 e2 : List (String × String))
    (hi : i ≠ 0) (hn : n ≠ "") :
    (postCart r ⟨some i, some n, some pr, some imgs, e1⟩).status = 201 ∧
    (postCart r ⟨some i, some n, some pr, some imgs, e1⟩).body =
      RespBody.payload (readCartFile r ++ [⟨i, n, pr, imgs⟩]) ∧
    (postCart r ⟨some i, some n, some pr, some imgs, e1⟩).written =
      some (readCartFile r ++ [⟨i, n, pr, imgs⟩]) ∧
    postCart r ⟨some i, some n, some pr, some imgs, e1⟩ =
      postCart r ⟨some i, some n, some pr, some imgs, e2⟩ := by
  have hv : cartItemValid ⟨some i, some n, some pr, some imgs, e1⟩ = true := by
    simp [cartItemValid, truthyNum, truthyStr, hi, hn]
  refine ⟨?_, ?_, ?_, rfl⟩ <;>
    simp [postCart, hv]

/-- Witness for C6 at a concrete payload with an extra field. -/
theorem c6_cart_add_snapshot_witness :
    (1 : JNum) ≠ 0 ∧ "X" ≠ "" ∧
    (postCart (FileRead.ok [⟨7, "Y", 2, ["y"]⟩])
        ⟨some 1, some "X", some 5, some ["a"], [("junk", "z")]⟩).written =
      some ([⟨7, "Y", 2, ["y"]⟩] ++ [⟨1, "X", 5, ["a"]⟩]) ∧
    postCart (FileRead.ok [⟨7, "Y", 2, ["y"]⟩])
        ⟨some 1, some "X", some 5, some ["a"], [("junk", "z")]⟩ =
      postCart (FileRead.ok [⟨7, "Y", 2, ["y"]⟩])
        ⟨some 1, some "X", some 5, some ["a"], []⟩ :=
  ⟨by decide, by decide,
   (c6_cart_add_snapshot (FileRead.ok [⟨7, "Y", 2, ["y"]⟩]) 1 "X" 5 ["a"]
     [("junk", "z")] [] (by decide) (by decide)).2.2.1,
   (c6_cart_add_snapshot (FileRead.ok [⟨7, "Y", 2, ["y"]⟩]) 1 "X" 5 ["a"]
     [("junk", "z")] [] (by decide) (by decide)).2.2.2⟩

/-- C7: removing cart index i with 0 ≤ i < n removes exactly position i —
the result has length n - 1, keeps positions below i, shifts the positions
above i left by one — and is persisted and returned with 200; an index
outside the range (here j) yields 404 and no write. -/
theorem c7_cart_remove_at (r : FileRead (List CartItem)) (i : Nat) (j : Int)
    (hi : i < (readCartFile r).length)
    (hj : ¬(0 ≤ j ∧ j < ((readCartFile r).length : Int))) :
    (deleteCartIndex r (some (i : Int))).status = 200 ∧
    (deleteCartIndex r (some (i : Int))).body =
      RespBody.payload ((readCartFile r).take i ++ (readCartFile r).drop (i + 1)) ∧
    (deleteCartIndex r (some (i : Int))).written =
      some ((readCartFile r).take i ++ (readCartFile r).drop (i + 1)) ∧
    ((readCartFile r).take i ++ (readCartFile r).drop (i + 1)).length =
      (readCartFile r).length - 1 ∧
    (∀ k, k < i →
      ((readCartFile r).take i ++ (readCartFile r).drop (i + 1))[k]? =
        (readCartFile r)[k]?) ∧
    (∀ k, i ≤ k →
      ((readCartFile r).take i ++ (readCartFile r).drop (i + 1))[k]? =
        (readCartFile r)[k + 1]?) ∧
    (deleteCartIndex r (some j)).status = 404 ∧
    (deleteCartIndex r (some j)).written = none := by
  have hcond : 0 ≤ (i : Int) ∧ (i : Int) < ((readCartFile r).length : Int) :=
    ⟨Int.ofNat_nonneg i, by exact_mod_cast hi⟩
  have htn : ((i : Int)).toNat = i := rfl
  refine ⟨?_, ?_, ?_, ?_, ?_, ?_, ?_, ?_⟩
  · simp [deleteCartIndex, hcond]
  · simp [deleteCartIndex, hcond, htn]
  · simp [deleteCartIndex, hcond, htn]
  · rw [List.length_append, List.length_take, List.length_drop]
    omega
  · intro k hk
    have h1 : k < ((readCartFile r).take i).length := by
      rw [List.length_take]; omega
    rw [List.getElem?_append_left h1, List.getElem?_take_of_lt hk]
  · intro k hk
    have h2 : ((readCartFile r).take i).length ≤ k := by
      rw [List.length_take]; omega
    have h3 : ((readCartFile r).take i).length = i := by
      rw [List.length_take]; omega
    rw [List.getElem?_append_right h2, List.getElem?_drop, h3]
    congr 1
    omega
  · simp [deleteCartIndex, hj]
  · simp [deleteCartIndex, hj]

/-- Witness for C7 on a two-item cart: removing index 1 succeeds, index 5
is out of range. -/
theorem c7_cart_remove_at_witness :
    1 < (readCartFile (FileRead.ok
      ([⟨1, "A", 2, ["a"]⟩, ⟨2, "B", 3, ["b"]⟩] : List CartItem))).length ∧
    ¬((0 : Int) ≤ 5 ∧ (5 : Int) < ((readCartFile (FileRead.ok
      ([⟨1, "A", 2, ["a"]⟩, ⟨2, "B", 3, ["b"]⟩] : List CartItem))).length : Int)) ∧
    (deleteCartIndex (FileRead.ok [⟨1, "A", 2, ["a"]⟩, ⟨2, "B", 3, ["b"]⟩])
      (some ((1 : Nat) : Int))).status = 200 ∧
    (deleteCartIndex (FileRead.ok [⟨1, "A", 2, ["a"]⟩, ⟨2, "B", 3, ["b"]⟩])
      (some 5)).status = 404 :=
  ⟨by decide, by decide,
   (c7_cart_remove_at (FileRead.ok [⟨1, "A", 2, ["a"]⟩, ⟨2, "B", 3, ["b"]⟩]) 1 5
     (by decide) (by decide)).1,
   (c7_cart_remove_at (FileRead.ok [⟨1, "A", 2, ["a"]⟩, ⟨2, "B", 3, ["b"]⟩]) 1 5
     (by decide) (by decide)).2.2.2.2.2.2.1⟩

lemma configuredSecret_ne_empty (env : Option String) : configuredSecret env ≠ "" := by
  cases env with
  | none => decide
  | some s =>
    by_cases hs : s = ""
    · subst hs; decide
    · have hb : (s == "") = false := by simpa using hs
      simp only [configuredSecret, hb, Bool.false_eq_true, if_false]
      exact hs

lemma checkAdmin_eq_false {secret : String} {header : Option String}
    (h : header ≠ some secret) : checkAdmin secret header = false := by
  unfold checkAdmin
  cases header with
  | none => rfl
  | some k =>
    have hk : k ≠ secret := fun he => h (by rw [he])
    simp [hk]

/-- C8: with the configured secret (environment value, or the hardcoded
fallback when unset or empty), a missing or mismatched x-admin-key header
makes both admin routes answer 403 without reading, mutating or writing the
product file; a header exactly equal to the secret passes the gate and the
guarded handler runs. -/
theorem c8_admin_gate (env : Option String) (header : Option String)
    (r : FileRead (List Product)) (payload : ProductPayload) (parsed : Option Int) :
    (header ≠ some (configuredSecret env) →
      (postAdminProduct (configuredSecret env) header r payload).status = 403 ∧
      (postAdminProduct (configuredSecret env) header r payload).didRead = false ∧
      (postAdminProduct (configuredSecret env) header r payload).written = none ∧
      (deleteAdminProduct (configuredSecret env) header r parsed).status = 403 ∧
      (deleteAdminProduct (configuredSecret env) header r parsed).didRead = false ∧
      (deleteAdminProduct (configuredSecret env) header r parsed).written = none) ∧
    (checkAdmin (configuredSecret env) (some (configuredSecret env)) = true ∧
      postAdminProduct (configuredSecret env) (some (configuredSecret env)) r payload =
        postAdminProductHandler r payload ∧
      deleteAdminProduct (configuredSecret env) (some (configuredSecret env)) r parsed =
        deleteAdminProductHandler r parsed) := by
  have hpass : checkAdmin (configuredSecret env) (some (configuredSecret env)) = true := by
    simp [checkAdmin, configuredSecret_ne_empty env]
  constructor
  · intro hne
    have hfail := checkAdmin_eq_false hne
    refine ⟨?_, ?_, ?_, ?_, ?_, ?_⟩ <;>
      simp [postAdminProduct, deleteAdminProduct, hfail, forbiddenOutcome]
  · exact ⟨hpass, by simp [postAdminProduct, hpass], by simp [deleteAdminProduct, hpass]⟩

/-- Witness for C8: a wrong key is rejected with 403 and no read, the
default configured secret passes the gate. -/
theorem c8_admin_gate_witness :
    (some "wrong" : Option String) ≠ some (configuredSecret none) ∧
    (postAdminProduct (configuredSecret none) (some "wrong") (FileRead.ok [])
      ⟨some "X", some 5, some "d", some ["a"], []⟩).status = 403 ∧
    (postAdminProduct (configuredSecret none) (some "wrong") (FileRead.ok [])
      ⟨some "X", some 5, some "d", some ["a"], []⟩).didRead = false ∧
    checkAdmin (configuredSecret none) (some (configuredSecret none)) = true :=
  ⟨by decide,
   ((c8_admin_gate none (some "wrong") (FileRead.ok [])
      ⟨some "X", some 5, some "d", some ["a"], []⟩ (some 1)).1 (by decide)).1,
   ((c8_admin_gate none (some "wrong") (FileRead.ok [])
      ⟨some "X", some 5, some "d", some ["a"], []⟩ (some 1)).1 (by decide)).2.1,
   (c8_admin_gate none (some "wrong") (FileRead.ok [])
      ⟨some "X", some 5, some "d", some ["a"], []⟩ (some 1)).2.1⟩

/-- C9: GET /api/products/:id answers 404 both when the path parameter does
not parse to an integer (parseInt yields NaN, which compares unequal to
every stored identifier) and when it parses to an integer no stored product
carries. -/
theorem c9_get_product_not_found (r : FileRead (List Product)) (parsed : Option Int)
    (h : parsed = none ∨
      ∃ n, parsed = some n ∧ ∀ p ∈ readProductsFile r, p.id ≠ n) :
    getProductById r parsed =
      { status := 404, body := RespBody.error "Product not found",
        written := none, didRead := true } := by
  have hfind : (readProductsFile r).find? (fun p => paramMatches parsed p.id) = none := by
    refine List.find?_eq_none.mpr ?_
    intro p hp
    rcases h with hn | ⟨n, hpn, hall⟩
    · subst hn; simp [paramMatches]
    · subst hpn; simp [paramMatches]; exact hall p hp
  simp [getProductById, hfind]

/-- Witness for C9: a NaN parameter on a nonempty catalog yields 404. -/
theorem c9_get_product_not_found_witness :
    ((none : Option Int) = none ∨
      ∃ n, (none : Option Int) = some n ∧
        ∀ p ∈ readProductsFile (FileRead.ok
          ([⟨1, "A", 5, "d", ["a"], []⟩] : List Product)), p.id ≠ n) ∧
    getProductById (FileRead.ok [⟨1, "A", 5, "d", ["a"], []⟩]) none =
      { status := 404, body := RespBody.error "Product not found",
        written := none, didRead := true } :=
  ⟨Or.inl rfl,
   c9_get_product_not_found (FileRead.ok [⟨1, "A", 5, "d", ["a"], []⟩]) none
     (Or.inl rfl)⟩

/-- C10: cart validation checks id and name by truthiness but price by
type: a payload with id 0 (or name "") is rejected with 400 and no write
even though the field is present, while price exactly 0 passes and the
item is appended and persisted. -/
theorem c10_cart_truthiness (r : FileRead (List CartItem)) (i : JNum) (n : String)
    (pr : JNum) (imgs : List String) (e1 e2 e3 : List (String × String))
    (hi : i ≠ 0) (hn : n ≠ "") :
    ((postCart r ⟨some 0, some n, some pr, some imgs, e1⟩).status = 400 ∧
     (postCart r ⟨some 0, some n, some pr, some imgs, e1⟩).written = none) ∧
    ((postCart r ⟨some i, some "", some pr, some imgs, e2⟩).status = 400 ∧
     (postCart r ⟨some i, some "", some pr, some imgs, e2⟩).written = none) ∧
    ((postCart r ⟨some i, some n, some (0 : JNum), some imgs, e3⟩).status = 201 ∧
     (postCart r ⟨some i, some n, some (0 : JNum), some imgs, e3⟩).written =
       some (readCartFile r ++ [⟨i, n, 0, imgs⟩])) := by
  refine ⟨⟨?_, ?_⟩, ⟨?_, ?_⟩, ⟨?_, ?_⟩⟩ <;>
    simp [postCart, cartItemValid, truthyNum, truthyStr, hi, hn]

/-- Witness for C10 at a concrete payload. -/
theorem c10_cart_truthiness_witness :
    (1 : JNum) ≠ 0 ∧ "X" ≠ "" ∧
    ((postCart (FileRead.ok ([] : List CartItem))
        ⟨some 0, some "X", some 2, some ["a"], []⟩).status = 400 ∧
     (postCart (FileRead.ok ([] : List CartItem))
        ⟨some 0, some "X", some 2, some ["a"], []⟩).written = none) ∧
    ((postCart (FileRead.ok ([] : List CartItem))
        ⟨some 1, some "X", some (0 : JNum), some ["a"], []⟩).status = 201 ∧
     (postCart (FileRead.ok ([] : List CartItem))
        ⟨some 1, some "X", some (0 : JNum), some ["a"], []⟩).written =
       some (readCartFile (FileRead.ok ([] : List CartItem)) ++ [⟨1, "X", 0, ["a"]⟩])) :=
  ⟨by decide, by decide,
   (c10_cart_truthiness (FileRead.ok []) 1 "X" 2 ["a"] [] [] []
     (by decide) (by decide)).1,
   (c10_cart_truthiness (FileRead.ok []) 1 "X" 2 ["a"] [] [] []
     (by decide) (by decide)).2.2⟩

end WebsiteApi
